import Mathlib

/-!
Verification of the Matter bridge backend (Go, `backend/handlers.go`).

The backend mediates between WebSocket clients and the external `chip-tool`
binary.  We shallowly embed the pure/parsing parts of the code on `List Char`
and `String`: the discovery-output parser, the one-shot attribute value
parser, the subscription report stream parser, the non-blocking session send,
and the per-intent dispatch logic (event and subprocess-spawn traces).
Machine integers are modelled as `Nat`/`Int` with explicit bounds.
-/

/-- Build a `String` from a character list. -/
def mkStr (l : List Char) : String := String.mk l

/-- Characters treated as white space by Go's `strings.TrimSpace` and the
regexp class `\s` (ASCII fragment, which is all this tool output uses). -/
def isSpaceChar (c : Char) : Bool :=
  c = ' ' || c = '\t' || c = '\n' || c = '\x0b' || c = '\x0c' || c = '\r'

/-- Does `s` start with `pat`? (model of `strings.HasPrefix`). -/
def startsWithL : List Char → List Char → Bool
  | _, [] => true
  | [], _ :: _ => false
  | c :: s, p :: ps => c = p && startsWithL s ps

/-- Does `s` end with `pat`? (model of `strings.HasSuffix`). -/
def endsWithL (s pat : List Char) : Bool :=
  startsWithL s.reverse pat.reverse

/-- Does `s` contain `pat` as a contiguous substring? (model of
`strings.Contains`). -/
def containsL : List Char → List Char → Bool
  | [], pat => startsWithL [] pat
  | c :: rest, pat => startsWithL (c :: rest) pat || containsL rest pat

/-- The suffix of `s` immediately after the first occurrence of `pat`,
or `none` when `pat` does not occur (model of `strings.Index` plus slicing
the remainder). -/
def afterFirstL : List Char → List Char → Option (List Char)
  | [], pat => if startsWithL [] pat then some [] else none
  | c :: rest, pat =>
    if startsWithL (c :: rest) pat then some ((c :: rest).drop pat.length)
    else afterFirstL rest pat

/-- Model of Go `strings.TrimSpace`. -/
def goTrimSpace (s : List Char) : List Char :=
  ((s.dropWhile isSpaceChar).reverse.dropWhile isSpaceChar).reverse

/-- Model of Go `strings.Trim(s, cutset)` for a one-character cutset. -/
def goTrimChar (s : List Char) (c : Char) : List Char :=
  ((s.dropWhile (· = c)).reverse.dropWhile (· = c)).reverse

/-- Model of Go `strings.ToLower` (ASCII fragment). -/
def goToLower (s : String) : String :=
  mkStr (s.data.map Char.toLower)

/-- String containment lifted to `String` (model of `strings.Contains`). -/
def containsStr (s pat : String) : Bool := containsL s.data pat.data

/-- Numeric value of a decimal digit character, when it is one. -/
def charDigit (c : Char) : Option Nat :=
  if c.isDigit then some (c.toNat - 48) else none

/-- Decimal value of a digit string (all characters must be digits). -/
def decValue : List Char → Option Nat
  | [] => none
  | l => l.foldl (fun acc c => match acc, charDigit c with
      | some n, some d => some (n * 10 + d)
      | _, _ => none) (some 0)

/-- Model of Go `strconv.ParseBool`: exactly the twelve accepted literals. -/
def goParseBool (s : List Char) : Option Bool :=
  let t := mkStr s
  if t = "1" || t = "t" || t = "T" || t = "TRUE" || t = "true" || t = "True" then
    some true
  else if t = "0" || t = "f" || t = "F" || t = "FALSE" || t = "false" || t = "False" then
    some false
  else none

/-- Model of Go `strconv.ParseInt(s, 10, 64)`: optional sign, non-empty
decimal digits, value within the signed 64-bit range. -/
def goParseInt (s : List Char) : Option Int :=
  let (neg, digits) :=
    match s with
    | '+' :: r => (false, r)
    | '-' :: r => (true, r)
    | r => (false, r)
  match decValue digits with
  | none => none
  | some n =>
      let v : Int := if neg then -(n : Int) else (n : Int)
      if -(2 ^ 63 : Int) ≤ v ∧ v ≤ 2 ^ 63 - 1 then some v else none

/-- Model of Go `strconv.ParseUint(s, 10, bits)`: no sign, non-empty decimal
digits, value below `2 ^ bits`. -/
def goParseUint (s : List Char) (bits : Nat) : Option Nat :=
  match decValue s with
  | none => none
  | some n => if n < 2 ^ bits then some n else none

/-- Model of Go `strconv.Atoi` (`ParseInt(s, 10, 0)` with 64-bit `int`). -/
def goAtoi (s : List Char) : Option Int := goParseInt s

/-- Exponent digits of a Go float literal: optional sign then non-empty
decimal digits. -/
def goExpDigits (r : List Char) : Bool :=
  let r2 := match r with
    | '+' :: t => t
    | '-' :: t => t
    | t => t
  !r2.isEmpty && r2.all Char.isDigit

/-- Optional decimal exponent part of a Go float literal. -/
def goExpPart : List Char → Bool
  | [] => true
  | 'e' :: r => goExpDigits r
  | 'E' :: r => goExpDigits r
  | _ => false

/-- Mantissa-plus-exponent body of a decimal Go float literal (sign already
removed): digits with an optional fractional part, at least one digit
overall, then an optional exponent. -/
def goDecFloatBody (t : List Char) : Bool :=
  let d1 := t.takeWhile Char.isDigit
  let r1 := t.dropWhile Char.isDigit
  match r1 with
  | '.' :: r2 =>
      let d2 := r2.takeWhile Char.isDigit
      let r3 := r2.dropWhile Char.isDigit
      (!d1.isEmpty || !d2.isEmpty) && goExpPart r3
  | r => !d1.isEmpty && goExpPart r

/-- Hexadecimal mantissa body of a Go float literal, after `0x`: hex digits
with an optional fractional part (at least one hex digit), then a mandatory
binary exponent `p`/`P`. -/
def goHexFloatBody (t : List Char) : Bool :=
  let isHex : Char → Bool := fun c => c.isDigit || ('a' ≤ c && c ≤ 'f') || ('A' ≤ c && c ≤ 'F')
  let d1 := t.takeWhile isHex
  let r1 := t.dropWhile isHex
  let (d2, r3) :=
    match r1 with
    | '.' :: r2 => (r2.takeWhile isHex, r2.dropWhile isHex)
    | r => ([], r)
  let expOk := match r3 with
    | 'p' :: r4 => goExpDigits r4
    | 'P' :: r4 => goExpDigits r4
    | _ => false
  (!d1.isEmpty || !d2.isEmpty) && expOk

/-- Syntactic-success model of Go `strconv.ParseFloat(s, 64)`: decimal or
hexadecimal float syntax, the signed special words `inf`/`infinity`, and the
unsigned special word `nan` (all case-insensitive).  Digit-group underscores
(never present in this tool's output) are not modelled. -/
def goParseFloatOk (s : List Char) : Bool :=
  let lower := s.map Char.toLower
  let body := match s with
    | '+' :: r => r
    | '-' :: r => r
    | r => r
  let lowerBody := body.map Char.toLower
  if lowerBody = "inf".data || lowerBody = "infinity".data then true
  else if lower = "nan".data then true
  else
    match body with
    | '0' :: 'x' :: r => goHexFloatBody r
    | '0' :: 'X' :: r => goHexFloatBody r
    | r => goDecFloatBody r

/-- Characters allowed in the parameter part of an ANSI escape sequence
(the regexp class `[0-9;]`). -/
def ansiParamChar (c : Char) : Bool := c.isDigit || c = ';'

theorem dropWhile_len_le {α : Type} (p : α → Bool) : ∀ l : List α, (l.dropWhile p).length ≤ l.length
  | [] => Nat.le_refl _
  | a :: l => by
      by_cases h : p a
      · simp [List.dropWhile, h]
        exact Nat.le_succ_of_le (dropWhile_len_le p l)
      · simp [List.dropWhile, h]

/-- Fuel-driven worker for `stripAnsi` (fuel only makes the recursion
structural; `fuel = s.length` always suffices since every step consumes at
least one input character). -/
def stripAnsiFuel : Nat → List Char → List Char
  | 0, s => s
  | fuel + 1, s =>
    match s with
    | [] => []
    | c :: rest =>
      if c = '\x1b' then
        match rest with
        | '[' :: r2 =>
          match r2.dropWhile ansiParamChar with
          | d :: r4 =>
            if d.isAlpha then stripAnsiFuel fuel r4
            else c :: stripAnsiFuel fuel rest
          | [] => c :: stripAnsiFuel fuel rest
        | _ => c :: stripAnsiFuel fuel rest
      else c :: stripAnsiFuel fuel rest

/-- Model of `stripAnsi`: delete every non-overlapping leftmost match of the
regexp `\x1b\[[0-9;]*[a-zA-Z]`, as `ReplaceAllString` does.  On a failed
match attempt at an escape character the character is kept and scanning
resumes right after it, exactly as the regexp engine rescans; no later match
can start inside `[` or the parameter characters, so resuming at the next
character is equivalent. -/
def stripAnsi (s : List Char) : List Char := stripAnsiFuel s.length s

/-- The `DiscoveredDevice` record from `models.go` (the Go `Type` field is
called `TypeLabel` here because `Type` is a Lean keyword). -/
structure DiscoveredDevice where
  ID : String
  Name : String
  TypeLabel : String
  IPAddress : String
  Port : Int
  MrpIntervalIdle : String
  MrpIntervalActive : String
  MrpActiveThreshold : String
  TCPClientSupported : Bool
  TCPServerSupported : Bool
  ICD : String
  Discriminator : String
  VendorID : String
  ProductID : String
  NodeID : String
  MACAddress : String
  PairingHint : Nat
  DeviceType : Nat
  CommissioningMode : Nat
  InstanceName : String
  SupportsCommissionerGeneratedPasscode : Bool
deriving DecidableEq, Repr

/-- The Go zero value `DiscoveredDevice{}` that starts every block. -/
def emptyDevice : DiscoveredDevice :=
  { ID := "", Name := "", TypeLabel := "", IPAddress := "", Port := 0,
    MrpIntervalIdle := "", MrpIntervalActive := "", MrpActiveThreshold := "",
    TCPClientSupported := false, TCPServerSupported := false, ICD := "",
    Discriminator := "", VendorID := "", ProductID := "", NodeID := "",
    MACAddress := "", PairingHint := 0, DeviceType := 0,
    CommissioningMode := 0, InstanceName := "",
    SupportsCommissionerGeneratedPasscode := false }

instance : Inhabited DiscoveredDevice := ⟨emptyDevice⟩

/-- Model of `extractValueAfterKey`: the trimmed remainder after the first
occurrence of `key`, or empty when `key` is absent. -/
def extractValueAfterKey (line key : List Char) : List Char :=
  match afterFirstL line key with
  | some v => goTrimSpace v
  | none => []

/-- One branch of the field cascade: when `key` extracts a non-empty value
from the line, apply `assign` to it; otherwise fall through to `next`.
This is the shape of each `else if val = extractValueAfterKey(...)` arm. -/
def tryField (key : String)
    (assign : DiscoveredDevice → List Char → DiscoveredDevice)
    (next : DiscoveredDevice → List Char → DiscoveredDevice)
    (d : DiscoveredDevice) (content : List Char) : DiscoveredDevice :=
  let v := extractValueAfterKey content key.data
  if !v.isEmpty then assign d v else next d content

/-- The `Port:` arm parses with `strconv.Atoi`; failure leaves the device
unchanged (error is only logged). -/
def setPort (d : DiscoveredDevice) (v : List Char) : DiscoveredDevice :=
  match goAtoi v with
  | some n => { d with Port := n }
  | none => d

/-- The `Pairing Hint:` arm parses with `strconv.ParseUint(v, 10, 16)`. -/
def setPairingHint (d : DiscoveredDevice) (v : List Char) : DiscoveredDevice :=
  match goParseUint v 16 with
  | some n => { d with PairingHint := n }
  | none => d

/-- The `Commissioning Mode:` arm parses with `ParseUint(v, 10, 8)` and maps
the numeric code to the human label stored in the `Type` field. -/
def setCommissioningMode (d : DiscoveredDevice) (v : List Char) : DiscoveredDevice :=
  match goParseUint v 8 with
  | some n =>
      { d with CommissioningMode := n,
               TypeLabel := if n = 1 then "BLE"
                 else if n = 2 then "OnNetwork (DNS-SD)"
                 else "CM:" ++ Nat.repr n }
  | none => d

/-- One `key: value` line applied to the in-progress device: the else-if
cascade from `parseDiscoveryOutput` (lines 558-671 of `handlers.go`), with
the arms in source order. -/
def processField : DiscoveredDevice → List Char → DiscoveredDevice :=
  tryField "Hostname:" (fun d v => { d with Name := mkStr v })
  (tryField "IP Address #1:" (fun d v => { d with IPAddress := mkStr v })
  (tryField "Port:" setPort
  (tryField "Mrp Interval idle:" (fun d v => { d with MrpIntervalIdle := mkStr v })
  (tryField "Mrp Interval active:" (fun d v => { d with MrpIntervalActive := mkStr v })
  (tryField "Mrp Active Threshold:" (fun d v => { d with MrpActiveThreshold := mkStr v })
  (tryField "TCP Client Supported:" (fun d v => { d with TCPClientSupported := v = ['1'] })
  (tryField "TCP Server Supported:" (fun d v => { d with TCPServerSupported := v = ['1'] })
  (tryField "ICD:" (fun d v => { d with ICD := mkStr v })
  (tryField "Vendor ID:" (fun d v => { d with VendorID := mkStr v })
  (tryField "Product ID:" (fun d v => { d with ProductID := mkStr v })
  (tryField "Long Discriminator:" (fun d v => { d with Discriminator := mkStr v })
  (tryField "Pairing Hint:" setPairingHint
  (tryField "Instance Name:" (fun d v => { d with InstanceName := mkStr v })
  (tryField "Commissioning Mode:" setCommissioningMode
  (tryField "Supports Commissioner Generated Passcode:"
      (fun d v => { d with SupportsCommissionerGeneratedPasscode := v = "true".data })
  (fun d _ => d))))))))))))))))

/-- Identity derivation at block finalization (lines 537-540 and 675-678):
instance-name based when an instance name was parsed, else the vendor-id /
product-id / discriminator composite. -/
def derivedId (d : DiscoveredDevice) : String :=
  if d.InstanceName ≠ "" then "dnsd_instance_" ++ d.InstanceName
  else "dnsd_vid" ++ d.VendorID ++ "_pid" ++ d.ProductID ++ "_disc" ++ d.Discriminator

/-- Display-name defaulting at block finalization (lines 541-544 and 679-683). -/
def derivedName (d : DiscoveredDevice) : String :=
  if d.InstanceName ≠ "" then "MatterDevice-" ++ d.InstanceName
  else if d.VendorID ≠ "" ∧ d.ProductID ≠ "" then
    "MatterDevice-VID" ++ d.VendorID ++ "-PID" ++ d.ProductID
  else "Unknown Matter Device"

/-- Finalize an in-progress record: default its id and name when empty. -/
def finalizeDevice (d : DiscoveredDevice) : DiscoveredDevice :=
  { d with ID := if d.ID = "" then derivedId d else d.ID,
           Name := if d.Name = "" then derivedName d else d.Name }

/-- Completeness invariant: a record is flushable once the discriminator or
the instance name is non-empty (lines 536 and 674). -/
def flushableB (d : DiscoveredDevice) : Bool :=
  d.Discriminator ≠ "" || d.InstanceName ≠ ""

/-- Content of a line after the `[DIS]` marker, ANSI-stripped and trimmed;
`none` for lines the parser skips (no `[DIS]`). -/
def disContent (raw : String) : Option (List Char) :=
  match afterFirstL (stripAnsi raw.data) "[DIS]".data with
  | some rest => some (goTrimSpace rest)
  | none => none

/-- The literal that starts a new record. -/
def discoveredMarker : List Char :=
  "Discovered commissionable/commissioner node:".data

/-- Does this `[DIS]` content start a new device block? -/
def isMarkerC (content : List Char) : Bool :=
  startsWithL content discoveredMarker

/-- Parser accumulator: the in-progress record (if any) and the devices
flushed so far, in order. -/
abbrev ParseAcc := Option DiscoveredDevice × List DiscoveredDevice

/-- One `[DIS]`-content line of `parseDiscoveryOutput`'s loop body. -/
def stepContent (acc : ParseAcc) (content : List Char) : ParseAcc :=
  if isMarkerC content then
    match acc.1 with
    | some d =>
        if flushableB d then (some emptyDevice, acc.2 ++ [finalizeDevice d])
        else (some emptyDevice, acc.2)
    | none => (some emptyDevice, acc.2)
  else
    match acc.1 with
    | some d => (some (processField d content), acc.2)
    | none => acc

/-- One raw scanner line of the loop: lines without `[DIS]` are skipped. -/
def parseLineStep (acc : ParseAcc) (raw : String) : ParseAcc :=
  match disContent raw with
  | none => acc
  | some content => stepContent acc content

/-- End of input: flush the in-progress record when complete (lines 674-688). -/
def finishParse (acc : ParseAcc) : List DiscoveredDevice :=
  match acc.1 with
  | some d => if flushableB d then acc.2 ++ [finalizeDevice d] else acc.2
  | none => acc.2

/-- Model of `parseDiscoveryOutput` over the scanner's line list. -/
def parseDiscoveryOutput (lines : List String) : List DiscoveredDevice :=
  finishParse (lines.foldl parseLineStep (none, []))

/-- The `[DIS]` contents the parser actually processes, in order. -/
def relevantContents (lines : List String) : List (List Char) :=
  lines.filterMap disContent

/-- The device state a block's field lines build from the zero value. -/
def blockDevice (seg : List (List Char)) : DiscoveredDevice :=
  seg.foldl processField emptyDevice

/-- A device block is well formed when its field lines give it a non-empty
discriminator or instance name (the completeness invariant). -/
def wellFormedBlock (seg : List (List Char)) : Bool :=
  flushableB (blockDevice seg)

/-- Worker for `blocks`: collect the current block's field lines (reversed
in `seg`) until the next marker or the end of input. -/
def blocksAux : List (List Char) → List (List Char) → List (List (List Char))
  | [], seg => [seg.reverse]
  | c :: cs, seg =>
    if isMarkerC c then seg.reverse :: blocksAux cs []
    else blocksAux cs (c :: seg)

/-- Decompose the processed `[DIS]` contents into device blocks: each marker
line opens a block consisting of the field lines up to the next marker;
content before the first marker belongs to no block. -/
def blocks : List (List Char) → List (List (List Char))
  | [] => []
  | c :: cs => if isMarkerC c then blocksAux cs [] else blocks cs

theorem blocksAux_eq (cs : List (List Char)) : ∀ seg,
    blocksAux cs seg
      = (seg.reverse ++ cs.takeWhile fun x => !isMarkerC x)
        :: blocks (cs.dropWhile fun x => !isMarkerC x) := by
  induction cs with
  | nil => intro seg; simp [blocksAux, blocks]
  | cons c cs ih =>
      intro seg
      by_cases hm : isMarkerC c
      · simp [blocksAux, blocks, hm, List.takeWhile_cons, List.dropWhile_cons]
      · simp [blocksAux, hm, List.takeWhile_cons, List.dropWhile_cons, ih (c :: seg)]

theorem blocks_cons_marker (c : List Char) (cs : List (List Char))
    (hm : isMarkerC c = true) :
    blocks (c :: cs)
      = (cs.takeWhile fun x => !isMarkerC x)
        :: blocks (cs.dropWhile fun x => !isMarkerC x) := by
  simp [blocks, hm, blocksAux_eq cs []]

/-- The number of well-formed device blocks in the scanner's line list. -/
def wellFormedBlockCount (lines : List String) : Nat :=
  ((blocks (relevantContents lines)).filter wellFormedBlock).length

/-- Device list produced by the loop from state "record in progress". -/
def runFrom (d : DiscoveredDevice) : List (List Char) → List DiscoveredDevice
  | [] => if flushableB d then [finalizeDevice d] else []
  | c :: cs =>
    if isMarkerC c then
      if flushableB d then finalizeDevice d :: runFrom emptyDevice cs
      else runFrom emptyDevice cs
    else runFrom (processField d c) cs

/-- Device list produced by the loop from the initial state (no record). -/
def runNone : List (List Char) → List DiscoveredDevice
  | [] => []
  | c :: cs => if isMarkerC c then runFrom emptyDevice cs else runNone cs

theorem foldl_parseLineStep (lines : List String) (acc : ParseAcc) :
    lines.foldl parseLineStep acc = (lines.filterMap disContent).foldl stepContent acc := by
  induction lines generalizing acc with
  | nil => rfl
  | cons l ls ih =>
      cases h : disContent l with
      | none => simp [List.filterMap_cons, h, List.foldl_cons, parseLineStep, ih]
      | some c => simp [List.filterMap_cons, h, List.foldl_cons, parseLineStep, ih]

theorem finish_foldl_some (cs : List (List Char)) :
    ∀ (d : DiscoveredDevice) (devs : List DiscoveredDevice),
      finishParse (cs.foldl stepContent (some d, devs)) = devs ++ runFrom d cs := by
  induction cs with
  | nil =>
      intro d devs
      by_cases hf : flushableB d <;> simp [finishParse, runFrom, hf]
  | cons c cs ih =>
      intro d devs
      by_cases hm : isMarkerC c
      · by_cases hf : flushableB d
        · simp [List.foldl_cons, stepContent, hm, hf, runFrom, ih]
        · simp [List.foldl_cons, stepContent, hm, hf, runFrom, ih]
      · simp [List.foldl_cons, stepContent, hm, runFrom, ih]

theorem finish_foldl_none (cs : List (List Char)) :
    ∀ devs, finishParse (cs.foldl stepContent (none, devs)) = devs ++ runNone cs := by
  induction cs with
  | nil => intro devs; simp [finishParse, runNone]
  | cons c cs ih =>
      intro devs
      by_cases hm : isMarkerC c
      · simp [List.foldl_cons, stepContent, hm, runNone, finish_foldl_some]
      · simp [List.foldl_cons, stepContent, hm, runNone, ih]

theorem parse_eq_runNone (lines : List String) :
    parseDiscoveryOutput lines = runNone (relevantContents lines) := by
  unfold parseDiscoveryOutput relevantContents
  rw [foldl_parseLineStep]
  simpa using finish_foldl_none (lines.filterMap disContent) []

theorem runFrom_split (cs : List (List Char)) :
    ∀ d : DiscoveredDevice,
      runFrom d cs =
        (if flushableB (List.foldl processField d (cs.takeWhile fun x => !isMarkerC x))
         then [finalizeDevice (List.foldl processField d (cs.takeWhile fun x => !isMarkerC x))]
         else [])
        ++ runNone (cs.dropWhile fun x => !isMarkerC x) := by
  induction cs with
  | nil => intro d; by_cases hf : flushableB d <;> simp [runFrom, runNone, hf]
  | cons c cs ih =>
      intro d
      by_cases hm : isMarkerC c
      · by_cases hf : flushableB d <;>
          simp [runFrom, hm, hf, List.takeWhile_cons, List.dropWhile_cons, runNone]
      · simp [runFrom, hm, List.takeWhile_cons, List.dropWhile_cons, ih (processField d c)]

theorem runNone_eq_blocks :
    ∀ (n : Nat) (cs : List (List Char)), cs.length ≤ n →
      runNone cs =
        ((blocks cs).filter wellFormedBlock).map
          (fun seg => finalizeDevice (blockDevice seg)) := by
  intro n
  induction n with
  | zero =>
      intro cs h
      match cs with
      | [] => simp [runNone, blocks]
  | succ n ih =>
      intro cs h
      match cs with
      | [] => simp [runNone, blocks]
      | c :: cs2 =>
          by_cases hm : isMarkerC c
          · have hlen : (cs2.dropWhile fun x => !isMarkerC x).length ≤ n := by
              have := dropWhile_len_le (fun x => !isMarkerC x) cs2
              simp at h
              omega
            rw [show runNone (c :: cs2) = runFrom emptyDevice cs2 by simp [runNone, hm]]
            rw [runFrom_split]
            rw [blocks_cons_marker c cs2 hm]
            rw [ih _ hlen]
            by_cases hf : wellFormedBlock (cs2.takeWhile fun x => !isMarkerC x)
            · have hf2 : flushableB (List.foldl processField emptyDevice
                  (cs2.takeWhile fun x => !isMarkerC x)) = true := hf
              simp [List.filter_cons, hf, hf2, blockDevice]
            · have hf2 : flushableB (List.foldl processField emptyDevice
                  (cs2.takeWhile fun x => !isMarkerC x)) = false := by
                simpa [wellFormedBlock, blockDevice] using hf
              simp [List.filter_cons, hf, hf2, blockDevice]
          · have hlen : cs2.length ≤ n := by simp at h; omega
            rw [show runNone (c :: cs2) = runNone cs2 by simp [runNone, hm]]
            rw [show blocks (c :: cs2) = blocks cs2 by simp [blocks, hm]]
            exact ih cs2 hlen

theorem parse_eq_blocks (lines : List String) :
    parseDiscoveryOutput lines =
      ((blocks (relevantContents lines)).filter wellFormedBlock).map
        (fun seg => finalizeDevice (blockDevice seg)) := by
  rw [parse_eq_runNone]
  exact runNone_eq_blocks (relevantContents lines).length _ (Nat.le_refl _)

theorem tryField_ID (key : String)
    (assign next : DiscoveredDevice → List Char → DiscoveredDevice)
    (ha : ∀ d v, (assign d v).ID = d.ID) (hn : ∀ d c, (next d c).ID = d.ID) :
    ∀ d c, (tryField key assign next d c).ID = d.ID := by
  intro d c
  simp only [tryField]
  split
  · exact ha d _
  · exact hn d c

theorem setPort_ID : ∀ d v, (setPort d v).ID = d.ID := by
  intro d v
  simp only [setPort]
  split <;> rfl

theorem setPairingHint_ID : ∀ d v, (setPairingHint d v).ID = d.ID := by
  intro d v
  simp only [setPairingHint]
  split <;> rfl

theorem setCommissioningMode_ID : ∀ d v, (setCommissioningMode d v).ID = d.ID := by
  intro d v
  simp only [setCommissioningMode]
  split <;> rfl

theorem processField_ID (d : DiscoveredDevice) (c : List Char) :
    (processField d c).ID = d.ID := by
  unfold processField
  refine tryField_ID _ _ _ ?_ ?_ d c
  · exact fun _ _ => rfl
  refine tryField_ID _ _ _ ?_ ?_
  · exact fun _ _ => rfl
  refine tryField_ID _ _ _ setPort_ID ?_
  refine tryField_ID _ _ _ ?_ ?_
  · exact fun _ _ => rfl
  refine tryField_ID _ _ _ ?_ ?_
  · exact fun _ _ => rfl
  refine tryField_ID _ _ _ ?_ ?_
  · exact fun _ _ => rfl
  refine tryField_ID _ _ _ ?_ ?_
  · exact fun _ _ => rfl
  refine tryField_ID _ _ _ ?_ ?_
  · exact fun _ _ => rfl
  refine tryField_ID _ _ _ ?_ ?_
  · exact fun _ _ => rfl
  refine tryField_ID _ _ _ ?_ ?_
  · exact fun _ _ => rfl
  refine tryField_ID _ _ _ ?_ ?_
  · exact fun _ _ => rfl
  refine tryField_ID _ _ _ ?_ ?_
  · exact fun _ _ => rfl
  refine tryField_ID _ _ _ setPairingHint_ID ?_
  refine tryField_ID _ _ _ ?_ ?_
  · exact fun _ _ => rfl
  refine tryField_ID _ _ _ setCommissioningMode_ID ?_
  refine tryField_ID _ _ _ ?_ ?_
  · exact fun _ _ => rfl
  exact fun _ _ => rfl

theorem foldl_processField_ID (seg : List (List Char)) :
    ∀ d : DiscoveredDevice, (List.foldl processField d seg).ID = d.ID := by
  induction seg with
  | nil => intro d; rfl
  | cons c cs ih => intro d; rw [List.foldl_cons, ih, processField_ID]

theorem blockDevice_ID (seg : List (List Char)) : (blockDevice seg).ID = "" :=
  foldl_processField_ID seg emptyDevice

theorem finalize_Discriminator (d : DiscoveredDevice) :
    (finalizeDevice d).Discriminator = d.Discriminator := rfl

theorem finalize_InstanceName (d : DiscoveredDevice) :
    (finalizeDevice d).InstanceName = d.InstanceName := rfl

theorem derivedId_finalize (d : DiscoveredDevice) :
    derivedId (finalizeDevice d) = derivedId d := rfl

theorem string_data_append (s t : String) : (s ++ t).data = s.data ++ t.data := by
  cases s
  cases t
  rfl

theorem string_ne_empty_of_data (s : String) (h : s.data ≠ []) : s ≠ "" := by
  intro he
  rw [he] at h
  exact h rfl

theorem append_ne_empty (a s : String) (h : a ≠ "") : a ++ s ≠ "" := by
  apply string_ne_empty_of_data
  rw [string_data_append]
  intro hc
  rcases List.append_eq_nil.mp hc with ⟨ha, _⟩
  exact h (by cases a; simp at ha; rw [ha])

theorem derivedId_ne_empty (d : DiscoveredDevice) : derivedId d ≠ "" := by
  unfold derivedId
  split
  · exact append_ne_empty _ _ (by decide)
  · exact append_ne_empty _ _
      (append_ne_empty _ _
        (append_ne_empty _ _
          (append_ne_empty _ _ (append_ne_empty _ _ (by decide)))))

theorem flushableB_iff (d : DiscoveredDevice) :
    flushableB d = true ↔ (d.Discriminator ≠ "" ∨ d.InstanceName ≠ "") := by
  simp [flushableB]

/-- C1: for every discovery output, `parseDiscoveryOutput` returns exactly
as many records as there are well-formed device blocks (blocks opened by the
`Discovered commissionable/commissioner node:` marker whose field lines give
a non-empty Long Discriminator or Instance Name), and every returned record
carries the non-empty derived id: instance-name-based when an instance name
was parsed, else the vendor-id/product-id/discriminator composite. -/
theorem discovery_block_count_and_ids (lines : List String) :
    (parseDiscoveryOutput lines).length = wellFormedBlockCount lines ∧
    ∀ x ∈ parseDiscoveryOutput lines, x.ID = derivedId x ∧ x.ID ≠ "" := by
  constructor
  · rw [parse_eq_blocks]
    simp [wellFormedBlockCount]
  · intro x hx
    rw [parse_eq_blocks] at hx
    rcases List.mem_map.mp hx with ⟨seg, hseg, rfl⟩
    have hid : (finalizeDevice (blockDevice seg)).ID = derivedId (blockDevice seg) := by
      show (if (blockDevice seg).ID = "" then derivedId (blockDevice seg)
            else (blockDevice seg).ID) = _
      simp [blockDevice_ID]
    refine ⟨?_, ?_⟩
    · rw [hid, derivedId_finalize]
    · rw [hid]
      exact derivedId_ne_empty _

/-- C8: a device block whose discriminator and instance name are both empty
is never finalized into the result list: every returned record has a
non-empty discriminator or instance name, whatever other fields were set. -/
theorem discovery_drops_incomplete_blocks (lines : List String)
    (x : DiscoveredDevice) (hx : x ∈ parseDiscoveryOutput lines) :
    x.Discriminator ≠ "" ∨ x.InstanceName ≠ "" := by
  rw [parse_eq_blocks] at hx
  rcases List.mem_map.mp hx with ⟨seg, hseg, rfl⟩
  have hf : wellFormedBlock seg = true := List.of_mem_filter hseg
  have h2 := (flushableB_iff (blockDevice seg)).mp hf
  rw [finalize_Discriminator, finalize_InstanceName]
  exact h2

/-- Dynamically typed attribute value, mirroring the Go `interface{}` that
holds a `bool`, `int64`, `float64` or `string`.  A parsed `float64` is
represented by its source text (`gfloat`); no claim inspects float
arithmetic. -/
inductive GoValue where
  | gbool (b : Bool)
  | gint (n : Int)
  | gfloat (text : String)
  | gstr (s : String)
deriving DecidableEq, Repr

/-- The fixed marker of the one-shot read regexp `CHIP:DMG: Value = (.*)`. -/
def valueMarker : List Char := "CHIP:DMG: Value = ".data

/-- Capture of a `marker(.*)` regexp: the text after the first occurrence of
the marker, up to the end of the line (`.` does not match a newline). -/
def captureAfterMarker (s marker : List Char) : Option (List Char) :=
  match afterFirstL s marker with
  | some rest => some (rest.takeWhile fun c => c ≠ '\n')
  | none => none

/-- The trimmed capture interpreted in priority order boolean → signed
64-bit integer → 64-bit float → quoted-string unwrap → raw string
(`readAttribute`, lines 757-775). -/
def parseValueText (cap : List Char) : GoValue :=
  let valStr := goTrimSpace cap
  match goParseBool valStr with
  | some b => .gbool b
  | none =>
    match goParseInt valStr with
    | some n => .gint n
    | none =>
      if goParseFloatOk valStr then .gfloat (mkStr valStr)
      else if startsWithL valStr ['"'] && endsWithL valStr ['"'] then
        .gstr (mkStr (goTrimChar valStr '"'))
      else .gstr (mkStr valStr)

/-- Model of the value extraction of `readAttribute`: scan the captured
stdout for the `CHIP:DMG: Value = ` marker line; when no such line exists
the raw stdout is wrapped with the `Raw: ` sentinel instead of erroring. -/
def readAttributeValue (stdout : String) : GoValue :=
  match captureAfterMarker stdout.data valueMarker with
  | some cap => parseValueText cap
  | none => .gstr ("Raw: " ++ stdout)

/-- C6: the one-shot attribute value parse interprets the text after the
`Value = ` marker line (full marker `CHIP:DMG: Value = `), trimmed, in
priority order boolean → int64 → float64 → quoted-string unwrap → raw:
`Value = true` gives boolean true, `Value = 42` gives integer 42,
`Value = "hello"` gives the string `hello` with quotes stripped; with no
marker line anywhere in the captured stdout the result is the raw stdout
wrapped with the `Raw: ` sentinel, and no exception is raised. -/
theorem read_attribute_value_roundtrip :
    readAttributeValue "CHIP:DMG: Value = true" = .gbool true ∧
    readAttributeValue "CHIP:DMG: Value = 42" = .gint 42 ∧
    readAttributeValue "CHIP:DMG: Value = \"hello\"" = .gstr "hello" ∧
    ∀ out : String, captureAfterMarker out.data valueMarker = none →
      readAttributeValue out = .gstr ("Raw: " ++ out) := by
  refine ⟨by decide, by decide, by decide, ?_⟩
  intro out h
  unfold readAttributeValue
  rw [h]

theorem read_attribute_value_roundtrip_witness :
    captureAfterMarker "command timed out".data valueMarker = none ∧
    readAttributeValue "command timed out" = .gstr ("Raw: " ++ "command timed out") :=
  ⟨by decide, read_attribute_value_roundtrip.2.2.2 "command timed out" (by decide)⟩

/-- The subscription stream's report-block opener, regexp
`CHIP:DMG: ReportDataMessage =` (unanchored, so plain containment). -/
def isReportStart (line : String) : Bool :=
  containsL line.data "CHIP:DMG: ReportDataMessage =".data

/-- The report-block terminator check `strings.Contains(line, "CHIP:DMG: \x7d")`. -/
def isTerminator (line : String) : Bool :=
  containsL line.data "CHIP:DMG: \x7d".data

/-- Find the text after `CHIP:DMG:`, one-or-more whitespace, `Data = ` — the
fixed part of the data-line regexp `CHIP:DMG:\s+Data = (.*) \((.*)\)` — at
its leftmost occurrence. -/
def dataTail : List Char → Option (List Char)
  | [] => none
  | c :: rest =>
    if startsWithL (c :: rest) "CHIP:DMG:".data then
      let r0 := (c :: rest).drop 9
      let ws := r0.takeWhile isSpaceChar
      let r := r0.dropWhile isSpaceChar
      if !ws.isEmpty && startsWithL r "Data = ".data then some (r.drop 7)
      else dataTail rest
    else dataTail rest

/-- Ascending indices `i` with `s[i] = ' '` and `s[i+1] = '('`. -/
def spaceParenIdxs : List Char → Nat → List Nat
  | ' ' :: '(' :: t, i => i :: spaceParenIdxs ('(' :: t) (i + 1)
  | _ :: t, i => spaceParenIdxs t (i + 1)
  | [], _ => []

/-- Resolve the greedy groups `(.*) \((.*)\)` on the remainder: the first
group runs to the last ` (` still followed by a `)`, the second to the last
`)` of the line. -/
def groupSplit (rest : List Char) : Option (List Char × List Char) :=
  match rest.reverse.findIdx? (fun c => c = ')') with
  | none => none
  | some j =>
      let rLast := rest.length - 1 - j
      match ((spaceParenIdxs rest 0).filter fun q => q + 2 ≤ rLast).getLast? with
      | none => none
      | some q => some (rest.take q, (rest.drop (q + 2)).take (rLast - (q + 2)))

/-- Model of `reDataLine.FindStringSubmatch` for
`CHIP:DMG:\s+Data = (.*) \((.*)\)`: the two captures, or `none` when the
line does not match.  (A later marker occurrence cannot match when the
leftmost one fails the group part, since its tail is a suffix of the
leftmost tail.) -/
def matchDataLine (line : List Char) : Option (List Char × List Char) :=
  match dataTail line with
  | none => none
  | some rest => groupSplit rest

/-- The signed/unsigned integer type tags that all go through `ParseInt`. -/
def intTypeTags : List String :=
  ["INT8S", "INT16S", "INT32S", "INT64S", "UINT8", "UINT16", "UINT32",
   "UINT64", "INT8U", "INT16U", "INT32U", "INT64U"]

/-- Decode one subscription data line's captures: trim both, switch on the
type tag (boolean / integer family / float family / string family /
unknown), falling back to the raw value string on parse failure
(lines 849-873). -/
def decodeSubValue (v t : List Char) : GoValue :=
  let valStr := goTrimSpace v
  let typeStr := mkStr (goTrimSpace t)
  if typeStr = "BOOLEAN" then
    match goParseBool valStr with
    | some b => .gbool b
    | none => .gstr (mkStr valStr)
  else if intTypeTags.contains typeStr then
    match goParseInt valStr with
    | some n => .gint n
    | none => .gstr (mkStr valStr)
  else if typeStr = "FLOAT" ∨ typeStr = "DOUBLE" then
    if goParseFloatOk valStr then .gfloat (mkStr valStr)
    else .gstr (mkStr valStr)
  else if typeStr = "UTF8S" ∨ typeStr = "OCTET_STRING" then
    if startsWithL valStr ['"'] && endsWithL valStr ['"'] then
      .gstr (mkStr (goTrimChar valStr '"'))
    else .gstr (mkStr valStr)
  else .gstr (mkStr valStr)

/-- One stdout line of the subscription state machine (lines 839-880): a
report-start line enters the block; inside the block a data line emits one
decoded update and returns to idle, a terminator line returns to idle with
no update, anything else stays in the block. -/
def subStep (acc : Bool × List GoValue) (line : String) : Bool × List GoValue :=
  if isReportStart line then (true, acc.2)
  else if acc.1 then
    match matchDataLine line.data with
    | some (v, t) => (false, acc.2 ++ [decodeSubValue v t])
    | none => if isTerminator line then (false, acc.2) else (true, acc.2)
  else acc

/-- Run the subscription stdout machine from a given state over the line
stream, collecting the emitted `AttributeUpdate` values in order. -/
def subRun (st : Bool) (lines : List String) : Bool × List GoValue :=
  lines.foldl subStep (st, [])

theorem subStep_inert (us : List GoValue) (m : String)
    (h1 : isReportStart m = false) (h2 : matchDataLine m.data = none)
    (h3 : isTerminator m = false) :
    subStep (true, us) m = (true, us) := by
  simp [subStep, h1, h2, h3]

theorem subRun_inert (mids : List String)
    (hmid : ∀ m ∈ mids, isReportStart m = false ∧ matchDataLine m.data = none ∧
      isTerminator m = false) :
    ∀ us, List.foldl subStep (true, us) mids = (true, us) := by
  induction mids with
  | nil => intro us; rfl
  | cons m ms ih =>
      intro us
      have hm := hmid m (List.mem_cons_self m ms)
      rw [List.foldl_cons, subStep_inert us m hm.1 hm.2.1 hm.2.2]
      exact ih (fun x hx => hmid x (List.mem_cons_of_mem m hx)) us

/-- C5: a well-formed report block — a `ReportDataMessage` start line, then
(after lines that are neither data lines, terminators, nor new starts) a
`Data = <v> (<TYPE>)` line — emits exactly one update, decoded from the two
captures per the type tag, and the state returns to idle.  A block whose
`CHIP:DMG: \x7d` terminator is reached with no data line emits zero updates.
On decode failure the value falls back to the raw trimmed string, here
stated for the boolean tag. -/
theorem subscription_block_emits_one_update
    (s l term : String) (mids mids2 : List String)
    (hs : isReportStart s = true)
    (hmid : ∀ m ∈ mids, isReportStart m = false ∧ matchDataLine m.data = none ∧
      isTerminator m = false)
    (v t : List Char)
    (hmatch : matchDataLine l.data = some (v, t))
    (hl : isReportStart l = false)
    (hmid2 : ∀ m ∈ mids2, isReportStart m = false ∧ matchDataLine m.data = none ∧
      isTerminator m = false)
    (hterm : isTerminator term = true)
    (hterm2 : isReportStart term = false)
    (hterm3 : matchDataLine term.data = none) :
    subRun false (s :: mids ++ [l]) = (false, [decodeSubValue v t]) ∧
    subRun false (s :: mids2 ++ [term]) = (false, []) ∧
    (∀ v2 t2 : List Char, mkStr (goTrimSpace t2) = "BOOLEAN" →
      goParseBool (goTrimSpace v2) = none →
      decodeSubValue v2 t2 = .gstr (mkStr (goTrimSpace v2))) := by
  refine ⟨?_, ?_, ?_⟩
  · show List.foldl subStep (false, []) ((s :: mids) ++ [l]) = _
    rw [List.foldl_append,
        show List.foldl subStep (false, []) (s :: mids) = (true, []) by
          rw [List.foldl_cons,
              show subStep (false, []) s = (true, []) by simp [subStep, hs],
              subRun_inert mids hmid []]]
    simp [subStep, hl, hmatch]
  · show List.foldl subStep (false, []) ((s :: mids2) ++ [term]) = _
    rw [List.foldl_append,
        show List.foldl subStep (false, []) (s :: mids2) = (true, []) by
          rw [List.foldl_cons,
              show subStep (false, []) s = (true, []) by simp [subStep, hs],
              subRun_inert mids2 hmid2 []]]
    simp [subStep, hterm2, hterm3, hterm]
  · intro v2 t2 ht hb
    simp [decodeSubValue, ht, hb]

theorem subscription_block_emits_one_update_witness :
    subRun false ["CHIP:DMG: ReportDataMessage =", "CHIP:DMG:  Data = true (BOOLEAN),"]
        = (false, [GoValue.gbool true]) ∧
    subRun false ["CHIP:DMG: ReportDataMessage =", "noise", "CHIP:DMG: \x7d"]
        = (false, []) := by
  have h := subscription_block_emits_one_update
    "CHIP:DMG: ReportDataMessage =" "CHIP:DMG:  Data = true (BOOLEAN)," "CHIP:DMG: \x7d"
    [] ["noise"] (by decide) (by simp) "true".data "BOOLEAN".data
    (by decide) (by decide) (by decide) (by decide) (by decide) (by decide)
  refine ⟨?_, h.2.1⟩
  rw [show GoValue.gbool true = decodeSubValue "true".data "BOOLEAN".data by decide]
  exact h.1

/-- A session's outbound queue: the buffered channel `send` (capacity 256 in
`serveWs`) holding marshalled `ServerMessage`s, modelled as `(type, payload)`
pairs — marshalling of these string-payload messages cannot fail and is
injective, so the JSON bytes are represented by the pair itself. -/
structure OutboundQueue where
  cap : Nat
  msgs : List (String × String)
deriving DecidableEq, Repr

/-- Model of the non-blocking channel send
`select { case c.send <- bytes: default: log drop }`: append when there is
room, otherwise return with the queue unchanged (the event is dropped). -/
def chanTrySend (q : OutboundQueue) (m : String × String) : OutboundQueue :=
  if q.msgs.length < q.cap then { q with msgs := q.msgs ++ [m] } else q

/-- Model of `notifyClientLog` (lines 700-712). -/
def notifyClientLog (q : OutboundQueue) (logType data : String) : OutboundQueue :=
  chanTrySend q (logType, data)

/-- Model of `notifyClient` (lines 714-726). -/
def notifyClient (q : OutboundQueue) (msgType payload : String) : OutboundQueue :=
  chanTrySend q (msgType, payload)

/-- C9: both session send operations are non-blocking: on a full outbound
queue the call returns with the queue unchanged (the event is dropped, only
logged), and otherwise the event is appended in order. -/
theorem notify_send_nonblocking (q : OutboundQueue) (t p : String) :
    (q.cap ≤ q.msgs.length →
      notifyClient q t p = q ∧ notifyClientLog q t p = q) ∧
    (q.msgs.length < q.cap →
      (notifyClient q t p).msgs = q.msgs ++ [(t, p)] ∧
      (notifyClientLog q t p).msgs = q.msgs ++ [(t, p)]) := by
  constructor
  · intro h
    have h2 : ¬(q.msgs.length < q.cap) := by omega
    constructor <;> simp [notifyClient, notifyClientLog, chanTrySend, h2]
  · intro h
    constructor <;> simp [notifyClient, notifyClientLog, chanTrySend, h]

theorem notify_send_nonblocking_witness :
    ((⟨1, [("a", "b")]⟩ : OutboundQueue).cap ≤ (⟨1, [("a", "b")]⟩ : OutboundQueue).msgs.length ∧
      notifyClient ⟨1, [("a", "b")]⟩ "t" "p" = ⟨1, [("a", "b")]⟩) ∧
    ((⟨256, []⟩ : OutboundQueue).msgs.length < (⟨256, []⟩ : OutboundQueue).cap ∧
      (notifyClientLog ⟨256, []⟩ "t" "p").msgs = [("t", "p")]) :=
  ⟨⟨by decide, ((notify_send_nonblocking ⟨1, [("a", "b")]⟩ "t" "p").1 (by decide)).1⟩,
   ⟨by decide, ((notify_send_nonblocking ⟨256, []⟩ "t" "p").2 (by decide)).2⟩⟩

/-- Outcome of the `get_status` branch for one run of the external tool. -/
inductive GetStatusOutcome where
  | sent (nodeId status : String)
  | noEvent
  | panicked
deriving DecidableEq, Repr

/-- Model of the regexp search `Data = (true|false)`: the leftmost
occurrence of either literal, capturing the boolean word. -/
def findDataBool : List Char → Option (List Char)
  | [] => none
  | c :: rest =>
    if startsWithL (c :: rest) "Data = true".data then some "true".data
    else if startsWithL (c :: rest) "Data = false".data then some "false".data
    else findDataBool rest

/-- Model of the `get_status` branch (lines 438-472): `exitErr` is whether
`cmd.Run` returned a non-nil error.  The guard is
`if err != nil && len(match) < 1 { return }`, so with exit status 0 and no
match the code reaches `match[1]` on a nil slice — an out-of-range index
that panics the goroutine (and, unrecovered, the process): `panicked`. -/
def getStatusHandler (exitErr : Bool) (stdout nodeId : String) : GetStatusOutcome :=
  match findDataBool stdout.data with
  | some v => .sent nodeId (mkStr v)
  | none => if exitErr then .noEvent else .panicked

/-- C2 (code bug): the `get_status` handler faults when the tool exits 0 and
its output has no `Data = true|false` line — the guard only returns early
when the exit error is non-nil AND there is no match, so `match[1]` is
indexed on an empty match slice and the handler goroutine panics.  With a
non-nil exit error the branch returns quietly, and with a match it replies. -/
theorem get_status_missing_data_line_panics :
    getStatusHandler false "" "5" = .panicked ∧
    getStatusHandler true "" "5" = .noEvent ∧
    getStatusHandler false "CHIP:DMG: Data = true," "5" = .sent "5" "true" := by
  refine ⟨by decide, by decide, by decide⟩

/-- One client-visible event of the `discover_devices` branch. -/
inductive DiscEvent where
  | log (text : String)
  | result (devices : List DiscoveredDevice) (error : String)
deriving DecidableEq, Repr

/-- Split captured stdout into the `bufio.Scanner` line list (`ScanLines`):
split at `\n`, drop one trailing `\r` per line, no final empty token for a
trailing newline, no token at all for empty input. -/
def splitNL : List Char → List (List Char)
  | [] => [[]]
  | c :: rest =>
    if c = '\n' then [] :: splitNL rest
    else
      match splitNL rest with
      | [] => [[c]]
      | l :: ls => (c :: l) :: ls

/-- Drop one trailing carriage return (ScanLines' `dropCR`). -/
def dropCR (l : List Char) : List Char :=
  if endsWithL l ['\r'] then l.dropLast else l

/-- The scanner's line list for a captured output string. -/
def goLines (s : String) : List String :=
  if s.data.isEmpty then []
  else
    let parts := splitNL s.data
    let parts2 := if parts.getLast? = some [] then parts.dropLast else parts
    parts2.map fun l => mkStr (dropCR l)

/-- The error message the discovery branch formats (lines 220-229):
the timeout text when `ctx.Err() == DeadlineExceeded`, else the
`cmd.Run` error text (`%v` of a nil error prints `<nil>`). -/
def discoverErrMsg (timedOut : Bool) (runErr : Option String)
    (stdout stderr : String) : String :=
  if timedOut then
    "Discovery command timed out after 1m0s. Stdout: " ++ stdout
      ++ ", Stderr: " ++ stderr
  else
    "Error running chip-tool 'discover commissionables': "
      ++ (match runErr with | none => "<nil>" | some e => e)
      ++ ". Stdout: " ++ stdout ++ ", Stderr: " ++ stderr

/-- Model of the `discover_devices` branch (lines 190-239): the ordered
events sent to the session.  `timedOut` models `ctx.Err() == DeadlineExceeded`
and `runErr` the `cmd.Run` error (`none` for exit status 0); the parser's
per-line `discovery_log` notifications are collapsed into the surrounding
log events, which does not affect the `result` events.  Note there is no
`err != nil` guard around the error block: the branch always sends the
error-carrying empty result and then always parses and sends a second
result. -/
def handleDiscover (timedOut : Bool) (runErr : Option String)
    (stdout stderr : String) : List DiscEvent :=
  [ .log "Starting 'discover commissionables' via chip-tool...",
    .log ((if timedOut then "Discovery timed out: " else "Error during discovery: ")
          ++ discoverErrMsg timedOut runErr stdout stderr),
    .result [] (discoverErrMsg timedOut runErr stdout stderr),
    .log "Discovery command 'discover commissionables' finished. Output processing...",
    .result (parseDiscoveryOutput (goLines stdout)) "" ]

/-- The `discovery_result` payloads among the emitted events, in order. -/
def discoveryResults (evs : List DiscEvent) : List (List DiscoveredDevice × String) :=
  evs.filterMap fun e =>
    match e with
    | .result ds err => some (ds, err)
    | _ => none

/-- C3 counterexample: on normal completion (no timeout, exit status 0,
empty output) the branch emits two `discovery_result` events, the first of
which carries a non-empty error string — not exactly one error-free result. -/
theorem discover_normal_completion_two_results :
    (discoveryResults (handleDiscover false none "" "")).length = 2 ∧
    (discoveryResults (handleDiscover false none "" "")).headI.2 ≠ "" := by
  refine ⟨by decide, by decide⟩

/-- C3 (amended): for every completion mode — timeout, non-zero exit, or
normal — the discovery branch emits exactly two `DiscoveryResult` events:
first an empty device list carrying a non-empty error string (the
timeout-specific message when the deadline was exceeded), then the devices
parsed from the captured stdout with no error string. -/
theorem discover_always_two_results (timedOut : Bool) (runErr : Option String)
    (stdout stderr : String) :
    discoveryResults (handleDiscover timedOut runErr stdout stderr)
      = [([], discoverErrMsg timedOut runErr stdout stderr),
         (parseDiscoveryOutput (goLines stdout), "")] ∧
    discoverErrMsg timedOut runErr stdout stderr ≠ "" := by
  constructor
  · rfl
  · unfold discoverErrMsg
    split
    · exact append_ne_empty _ _ (append_ne_empty _ _ (append_ne_empty _ _ (by decide)))
    · exact append_ne_empty _ _
        (append_ne_empty _ _
          (append_ne_empty _ _
            (append_ne_empty _ _ (append_ne_empty _ _ (by decide)))))

/-- Concrete discovery output for the C1 witness: two well-formed blocks. -/
def c1DemoLines : List String :=
  [ "[1234.5] [DIS] Discovered commissionable/commissioner node:",
    "[1234.5] [DIS] Long Discriminator: 1234",
    "[1234.5] [DIS] Vendor ID: 65521",
    "[1234.5] [DIS] Discovered commissionable/commissioner node:",
    "[1234.5] [DIS] Instance Name: DEADBEEF" ]

theorem discovery_block_count_and_ids_witness :
    (parseDiscoveryOutput c1DemoLines).length = wellFormedBlockCount c1DemoLines ∧
    ((parseDiscoveryOutput c1DemoLines).headI ∈ parseDiscoveryOutput c1DemoLines ∧
      (parseDiscoveryOutput c1DemoLines).headI.ID ≠ "") :=
  ⟨(discovery_block_count_and_ids c1DemoLines).1,
   by decide,
   ((discovery_block_count_and_ids c1DemoLines).2 _ (by decide)).2⟩

/-- Concrete discovery output for the C8 witness: one block with an instance
name only. -/
def c8DemoLines : List String :=
  [ "[77.1] [DIS] Discovered commissionable/commissioner node:",
    "[77.1] [DIS] Hostname: DemoHost",
    "[77.1] [DIS] Instance Name: CAFE0123" ]

theorem discovery_drops_incomplete_blocks_witness :
    ((parseDiscoveryOutput c8DemoLines).headI ∈ parseDiscoveryOutput c8DemoLines) ∧
    ((parseDiscoveryOutput c8DemoLines).headI.Discriminator ≠ "" ∨
      (parseDiscoveryOutput c8DemoLines).headI.InstanceName ≠ "") :=
  ⟨by decide, discovery_drops_incomplete_blocks c8DemoLines _ (by decide)⟩

/-- A decoded JSON parameter value (`interface{}` after `json.Unmarshal`).
JSON numbers are `float64` in Go; the frontend only sends integral values,
so they are carried as `Int` (`int(levelVal)` truncation is the identity on
them). -/
inductive GoJson where
  | num (n : Int)
  | str (s : String)
  | other
deriving DecidableEq, Repr

/-- Result of one `cmd.Run` invocation: the returned error (`none` for exit
status 0) and the captured stdout/stderr. -/
structure RunRes where
  err : Option String
  stdout : String
  stderr : String
deriving DecidableEq, Repr

/-- The `CommandResponsePayload` from `models.go`. -/
structure CommandResponse where
  success : Bool
  nodeID : String
  details : String
  error : String
deriving DecidableEq, Repr

/-- Outcome of the `device_command` branch: rejected before spawning, or ran
with the built argument vector and the emitted response. -/
inductive DeviceCommandOutcome where
  | rejected (resp : CommandResponse)
  | ran (argv : List String) (resp : CommandResponse)
deriving DecidableEq, Repr

/-- The textual error markers checked on a zero-exit run (line 424):
`CHIP Error` in stdout or stderr, or `Error:` in stderr. -/
def commandErrorMarkers (stdout stderr : String) : Bool :=
  containsStr stdout "CHIP Error" || containsStr stderr "CHIP Error"
    || containsStr stderr "Error:"

/-- The `fmt.Sprintf("Stdout:\n%s\nStderr:\n%s", ...)` capture summary. -/
def cmdOutputText (stdout stderr : String) : String :=
  "Stdout:\n" ++ stdout ++ "\nStderr:\n" ++ stderr

/-- Model of `payload.Params[key].(float64)`: Go map indexing plus float
type assertion — `none` when the key is absent or the value is not a
number. -/
def lookupNum (params : List (String × GoJson)) (key : String) : Option Int :=
  match params.lookup key with
  | some (.num n) => some n
  | _ => none

/-- Success classification and response construction after the run
(lines 418-437): non-zero exit is failure; zero exit with error markers in
the captured text is failure; otherwise success. -/
def classifyRun (cluster command nodeID : String) (run : RunRes) : CommandResponse :=
  match run.err with
  | some e =>
      { success := false, nodeID := nodeID,
        details := cmdOutputText run.stdout run.stderr,
        error := "Error executing " ++ command ++ "." ++ cluster ++ " on "
          ++ nodeID ++ ": " ++ e ++ ". Output: "
          ++ cmdOutputText run.stdout run.stderr }
  | none =>
      if commandErrorMarkers run.stdout run.stderr then
        { success := false, nodeID := nodeID,
          details := cmdOutputText run.stdout run.stderr,
          error := "Command executed but chip-tool reported an error in its output." }
      else
        { success := true, nodeID := nodeID,
          details := "Command executed. Output: " ++ cmdOutputText run.stdout run.stderr,
          error := "" }

/-- Rendering of a generic parameter value (only reached in the
unmapped-cluster fallback, which no claim classifies further). -/
def goJsonFmt : GoJson → String
  | .num n => Int.repr n
  | .str s => s
  | .other => "<param>"

/-- Model of the `device_command` branch (lines 367-437): validation, the
argument-vector construction per cluster/command, and the emitted
`CommandResponse`.  The endpoint id is the fixed `"1"`; the on-success
fire-and-forget attribute reads do not affect the response and are not
traced here.  The unmapped-cluster fallback appends parameter values in the
(unspecified) iteration order of the Go map, modelled as list order. -/
def handleDeviceCommand (nodeID cluster command : String)
    (params : List (String × GoJson)) (run : RunRes) : DeviceCommandOutcome :=
  if nodeID = "" ∨ cluster = "" ∨ command = "" then
    .rejected { success := false, nodeID := nodeID, details := "",
                error := "Missing nodeId, cluster, or command" }
  else
    let base := [goToLower cluster, goToLower command]
    if cluster = "OnOff" then
      .ran (base ++ [nodeID, "1"]) (classifyRun cluster command nodeID run)
    else if cluster = "LevelControl" then
      if command = "MoveToLevel" then
        match lookupNum params "level" with
        | none =>
            .rejected { success := false, nodeID := nodeID, details := "",
                        error := "Missing or invalid 'level' parameter for MoveToLevel" }
        | some lvl =>
            let tt := match lookupNum params "transitionTime" with
              | some t2 => t2
              | none => 0
            .ran (base ++ [Int.repr lvl, Int.repr tt, "0", "0"] ++ [nodeID, "1"])
              (classifyRun cluster command nodeID run)
      else .ran (base ++ [nodeID, "1"]) (classifyRun cluster command nodeID run)
    else
      .ran (base ++ params.map (fun kv => goJsonFmt kv.2) ++ [nodeID, "1"])
        (classifyRun cluster command nodeID run)

/-- C7: for every `device_command` intent that passes validation, the
emitted `CommandResponse` has `success = false` exactly when the external
tool exits non-zero, or exits zero but the captured output carries an error
marker (`CHIP Error` in stdout or stderr, or `Error:` in stderr); otherwise
`success = true`. -/
theorem device_command_success_iff (nodeID cluster command : String)
    (params : List (String × GoJson)) (run : RunRes)
    (hn : nodeID ≠ "") (hc : cluster ≠ "") (hcmd : command ≠ "")
    (hlvl : cluster = "LevelControl" → command = "MoveToLevel" →
      lookupNum params "level" ≠ none) :
    (∃ argv, handleDeviceCommand nodeID cluster command params run
        = .ran argv (classifyRun cluster command nodeID run)) ∧
    ((classifyRun cluster command nodeID run).success = false ↔
      (run.err ≠ none ∨ commandErrorMarkers run.stdout run.stderr = true)) := by
  constructor
  · unfold handleDeviceCommand
    rw [if_neg (by simp [hn, hc, hcmd])]
    by_cases h1 : cluster = "OnOff"
    · rw [if_pos h1]; exact ⟨_, rfl⟩
    · rw [if_neg h1]
      by_cases h2 : cluster = "LevelControl"
      · rw [if_pos h2]
        by_cases h3 : command = "MoveToLevel"
        · rw [if_pos h3]
          rcases hm : lookupNum params "level" with _ | lvl
          · exact absurd hm (hlvl h2 h3)
          · exact ⟨_, rfl⟩
        · rw [if_neg h3]; exact ⟨_, rfl⟩
      · rw [if_neg h2]; exact ⟨_, rfl⟩
  · unfold classifyRun
    rcases run with ⟨err, stdout, stderr⟩
    cases err with
    | some e => simp
    | none =>
        by_cases hmk : commandErrorMarkers stdout stderr
        · simp [hmk]
        · simp [hmk]

theorem device_command_success_iff_witness :
    (∃ argv, handleDeviceCommand "7" "OnOff" "On" [] ⟨none, "", ""⟩
        = .ran argv (classifyRun "OnOff" "On" "7" ⟨none, "", ""⟩)) ∧
    (classifyRun "OnOff" "On" "7" ⟨none, "", ""⟩).success = true := by
  have h := device_command_success_iff "7" "OnOff" "On" [] ⟨none, "", ""⟩
    (by decide) (by decide) (by decide) (fun h2 => absurd h2 (by decide))
  exact ⟨h.1, by decide⟩

/-- Reversed decimal digits of `n` (fuel makes the `n / 10` recursion
structural; `fuel = n` always suffices). -/
def natDigitsRevFuel : Nat → Nat → List Char
  | 0, _ => []
  | fuel + 1, n => if n = 0 then [] else Nat.digitChar (n % 10) :: natDigitsRevFuel fuel (n / 10)

/-- Decimal digit string of a natural number. -/
def natDecimal (n : Nat) : List Char :=
  if n = 0 then ['0'] else (natDigitsRevFuel n n).reverse

/-- Model of `fmt.Sprintf("%04d", n)` for a non-negative `n`: the decimal
digits, left padded with `0` to a minimum width of four. -/
def format04d (n : Nat) : String :=
  mkStr (List.replicate (4 - (natDecimal n).length) '0' ++ natDecimal n)

/-- One noise group `\[\d+\.\d+\] \[\d+:\d+\] \[DMG\]\s*` of the
endpoint-id regexp; returns the remainder after the group. -/
def noiseGroup (s : List Char) : Option (List Char) :=
  match s with
  | '[' :: r1 =>
    let d1 := r1.takeWhile Char.isDigit
    let r2 := r1.dropWhile Char.isDigit
    if d1.isEmpty then none else
    match r2 with
    | '.' :: r3 =>
      let d2 := r3.takeWhile Char.isDigit
      let r4 := r3.dropWhile Char.isDigit
      if d2.isEmpty then none else
      match r4 with
      | ']' :: ' ' :: '[' :: r5 =>
        let d3 := r5.takeWhile Char.isDigit
        let r6 := r5.dropWhile Char.isDigit
        if d3.isEmpty then none else
        match r6 with
        | ':' :: r7 =>
          let d4 := r7.takeWhile Char.isDigit
          let r8 := r7.dropWhile Char.isDigit
          if d4.isEmpty then none else
          match r8 with
          | ']' :: ' ' :: '[' :: 'D' :: 'M' :: 'G' :: ']' :: r9 =>
              some (r9.dropWhile isSpaceChar)
          | _ => none
        | _ => none
      | _ => none
    | _ => none
  | _ => none

/-- Greedy repetition of noise groups (each successful group consumes at
least one character, so `fuel = s.length` suffices). -/
def noiseLoop : Nat → List Char → List Char
  | 0, s => s
  | fuel + 1, s =>
    match noiseGroup s with
    | some r => noiseLoop fuel r
    | none => s

/-- The group part of the endpoint-id regexp after `Data = [`: optional
whitespace, any number of noise groups, then the digit capture followed by
` (unsigned)`. -/
def partsListGroups (r0 : List Char) : Option (List Char) :=
  let r1 := r0.dropWhile isSpaceChar
  let r2 := noiseLoop r1.length r1
  let digits := r2.takeWhile Char.isDigit
  let r3 := r2.dropWhile Char.isDigit
  if digits.isEmpty then none
  else if startsWithL r3 " (unsigned)".data then some digits
  else none

/-- Scan for the leftmost `Data = [` occurrence whose tail matches the group
part; later occurrences are tried when an earlier one fails. -/
def partsListMatchFuel : Nat → List Char → Option (List Char)
  | 0, _ => none
  | fuel + 1, s =>
    match s with
    | [] => none
    | c :: rest =>
      if startsWithL (c :: rest) "Data = [".data then
        match partsListGroups ((c :: rest).drop 8) with
        | some digits => some digits
        | none => partsListMatchFuel fuel rest
      else partsListMatchFuel fuel rest

/-- Model of the endpoint-id extraction regexp of the commissioning branch
(line 310): `Data = \[\s*(?:\[\d+\.\d+\] \[\d+:\d+\] \[DMG\]\s*)*([0-9]+)
\(unsigned\)`, returning the captured digit group. -/
def partsListMatch (s : List Char) : Option (List Char) :=
  partsListMatchFuel s.length s

/-- The fields of `CommissionDevicePayload` the branch reads.  `NodeID` is
the client-supplied `nodeid` value, which the handler overwrites. -/
structure CommissionPayload where
  SetupCode : String
  LongDiscriminator : String
  VendorID : String
  ProductID : String
  NodeID : String
  CommissioningMode : String
deriving DecidableEq, Repr

/-- The `CommissioningStatusPayload` from `models.go`. -/
structure CommissionStatus where
  success : Bool
  NodeID : String
  Details : String
  Error : String
  OriginalDiscriminator : String
  EndpointId : String
  DiscriminatorAssociatedWithRequest : String
deriving DecidableEq, Repr

/-- One observable action of the `commission_device` branch: a client log,
a subprocess spawn (its argument vector), or a `commissioning_status`. -/
inductive CommEvent where
  | log (text : String)
  | spawn (argv : List String)
  | status (st : CommissionStatus)
deriving DecidableEq, Repr

/-- Model of the `commission_device` branch (lines 241-365) as the ordered
trace of spawns and status events.  Inputs: the decoded payload, whether
`os.Getwd` failed, the random draw `n` (`rand.Intn(100000)`), and the two
run results.  Only `SetupCode` is validated.  The output builders are
reused without reset, so the endpoint-id regexp searches the concatenation
of both runs' stdout, and the follow-up success check reads the
concatenated stdout/stderr; the first run's exit error is never checked.
The fire-and-forget `readAttribute` follow-up is recorded as a spawn at its
dispatch point.  Client log events other than the command-output log are
omitted; no claim counts log events. -/
def handleCommission (p : CommissionPayload) (getwdErr : Bool) (n : Nat)
    (pairRun partsRun : RunRes) : List CommEvent :=
  if p.SetupCode = "" then
    [ .log "Missing setupCode or nodeIdToAssign for commissioning.",
      .status { success := false, NodeID := "", Details := "",
                Error := "Missing setupCode or nodeIdToAssign.",
                OriginalDiscriminator := p.LongDiscriminator, EndpointId := "",
                DiscriminatorAssociatedWithRequest := "" } ]
  else if getwdErr then []
  else
    let gen := format04d (n % 100000)
    let commissioningOutput :=
      "Stdout:\n" ++ pairRun.stdout ++ "\nStderr:\n" ++ pairRun.stderr
    let stdout2 := pairRun.stdout ++ partsRun.stdout
    let stderr2 := pairRun.stderr ++ partsRun.stderr
    [ .spawn ["pairing", "onnetwork-long", gen, p.SetupCode, p.LongDiscriminator],
      .log ("Commissioning command output:\n" ++ commissioningOutput),
      .spawn ["descriptor", "read", "parts-list", gen, "0"] ]
    ++
    match partsListMatch stdout2.data with
    | none =>
        match partsRun.err with
        | some e =>
            [ .status { success := false, NodeID := "",
                        Details := commissioningOutput,
                        Error := "Error commissioning device: " ++ e
                          ++ ". Output: " ++ commissioningOutput,
                        OriginalDiscriminator := p.LongDiscriminator,
                        EndpointId := "",
                        DiscriminatorAssociatedWithRequest := p.LongDiscriminator } ]
        | none => []
    | some digits =>
        [ .status { success := true, NodeID := gen,
                    Details := "Device commissioned successfully. " ++ commissioningOutput,
                    Error := "", OriginalDiscriminator := p.LongDiscriminator,
                    EndpointId := mkStr digits,
                    DiscriminatorAssociatedWithRequest := p.LongDiscriminator },
          .spawn ["basicinformation", "read", "NodeLabel", gen, "1"] ]
        ++
        (if containsStr stdout2 "Commissioning success"
            || containsStr stdout2 "commissioning complete"
            || containsStr stderr2 "Commissioning success"
            || (containsStr stderr2 "commissioning complete" && stderr2 = "") then
          [ .status { success := true, NodeID := "",
                      Details := "Commissioning reported success. Node ID may need to be queried or was already known. Output: "
                        ++ commissioningOutput,
                      Error := "", OriginalDiscriminator := p.LongDiscriminator,
                      EndpointId := "",
                      DiscriminatorAssociatedWithRequest := p.LongDiscriminator } ]
        else
          [ .status { success := false, NodeID := "",
                      Details := commissioningOutput,
                      Error := "Commissioning finished, but success or Node ID unclear from output. Check logs.",
                      OriginalDiscriminator := p.LongDiscriminator,
                      EndpointId := "",
                      DiscriminatorAssociatedWithRequest := p.LongDiscriminator } ])

/-- The subprocess argument vectors spawned by a commissioning trace. -/
def commissionSpawns (evs : List CommEvent) : List (List String) :=
  evs.filterMap fun e =>
    match e with
    | .spawn argv => some argv
    | _ => none

/-- The `commissioning_status` payloads of a commissioning trace. -/
def commissionStatuses (evs : List CommEvent) : List CommissionStatus :=
  evs.filterMap fun e =>
    match e with
    | .status st => some st
    | _ => none

/-- C4 counterexample: a `commission_device` intent with a non-empty setup
code but an empty (missing) discriminator/target identifier still spawns the
pairing subprocess — the discriminator is not validated. -/
theorem commission_missing_discriminator_still_spawns :
    commissionSpawns (handleCommission
      { SetupCode := "34970112332", LongDiscriminator := "", VendorID := "",
        ProductID := "", NodeID := "9999", CommissioningMode := "" }
      false 7 ⟨none, "", ""⟩ ⟨none, "", ""⟩) ≠ [] := by decide

/-- C4 (amended): only a missing setup code short-circuits the
`commission_device` branch, emitting exactly one
`CommissioningStatus{success:false}` and spawning no subprocess; a missing
discriminator is not validated — with a non-empty setup code (and `os.Getwd`
succeeding) subprocesses are spawned regardless of the discriminator. -/
theorem commission_missing_setup_short_circuits (p : CommissionPayload)
    (getwdErr : Bool) (n : Nat) (r1 r2 : RunRes) (h : p.SetupCode = "") :
    commissionSpawns (handleCommission p getwdErr n r1 r2) = [] ∧
    commissionStatuses (handleCommission p getwdErr n r1 r2)
      = [{ success := false, NodeID := "", Details := "",
           Error := "Missing setupCode or nodeIdToAssign.",
           OriginalDiscriminator := p.LongDiscriminator, EndpointId := "",
           DiscriminatorAssociatedWithRequest := "" }] ∧
    (∀ q : CommissionPayload, q.SetupCode ≠ "" →
      commissionSpawns (handleCommission q false n r1 r2) ≠ []) := by
  refine ⟨?_, ?_, ?_⟩
  · simp [handleCommission, h, commissionSpawns]
  · simp [handleCommission, h, commissionStatuses]
  · intro q hq
    unfold handleCommission
    rw [if_neg hq, if_neg (by simp)]
    simp [commissionSpawns, List.filterMap_append, List.filterMap_cons]

theorem commission_missing_setup_short_circuits_witness :
    (({ SetupCode := "", LongDiscriminator := "770", VendorID := "",
        ProductID := "", NodeID := "1234", CommissioningMode := "" } :
        CommissionPayload).SetupCode = "") ∧
    commissionSpawns (handleCommission
      { SetupCode := "", LongDiscriminator := "770", VendorID := "",
        ProductID := "", NodeID := "1234", CommissioningMode := "" }
      false 7 ⟨none, "", ""⟩ ⟨none, "", ""⟩) = [] ∧
    commissionSpawns (handleCommission
      { SetupCode := "20202021", LongDiscriminator := "770", VendorID := "",
        ProductID := "", NodeID := "1234", CommissioningMode := "" }
      false 7 ⟨none, "", ""⟩ ⟨none, "", ""⟩) ≠ [] :=
  ⟨by decide,
   (commission_missing_setup_short_circuits
      { SetupCode := "", LongDiscriminator := "770", VendorID := "",
        ProductID := "", NodeID := "1234", CommissioningMode := "" }
      false 7 ⟨none, "", ""⟩ ⟨none, "", ""⟩ (by decide)).1,
   (commission_missing_setup_short_circuits
      { SetupCode := "", LongDiscriminator := "770", VendorID := "",
        ProductID := "", NodeID := "1234", CommissioningMode := "" }
      false 7 ⟨none, "", ""⟩ ⟨none, "", ""⟩ (by decide)).2.2
      { SetupCode := "20202021", LongDiscriminator := "770", VendorID := "",
        ProductID := "", NodeID := "1234", CommissioningMode := "" } (by decide)⟩

theorem digitChar_isDigit : ∀ d : Nat, d < 10 → (Nat.digitChar d).isDigit = true := by
  decide

theorem natDigitsRevFuel_digits :
    ∀ fuel m : Nat, ∀ c ∈ natDigitsRevFuel fuel m, c.isDigit = true := by
  intro fuel
  induction fuel with
  | zero => intro m c hc; simp [natDigitsRevFuel] at hc
  | succ f ih =>
      intro m c hc
      by_cases hm : m = 0
      · simp [natDigitsRevFuel, hm] at hc
      · simp [natDigitsRevFuel, hm] at hc
        rcases hc with hc | hc
        · rw [hc]; exact digitChar_isDigit _ (Nat.mod_lt _ (by norm_num))
        · exact ih (m / 10) c hc

theorem natDecimal_digits (n : Nat) : ∀ c ∈ natDecimal n, c.isDigit = true := by
  intro c hc
  unfold natDecimal at hc
  by_cases h : n = 0
  · simp [h] at hc
    rw [hc]
    decide
  · simp [h] at hc
    exact natDigitsRevFuel_digits n n c hc

theorem format04d_length (n : Nat) : 4 ≤ (format04d n).length := by
  show 4 ≤ (List.replicate (4 - (natDecimal n).length) '0' ++ natDecimal n).length
  rw [List.length_append, List.length_replicate]
  omega

theorem format04d_digits (n : Nat) : ∀ c ∈ (format04d n).data, c.isDigit = true := by
  intro c hc
  have hd : (format04d n).data
      = List.replicate (4 - (natDecimal n).length) '0' ++ natDecimal n := rfl
  rw [hd] at hc
  rcases List.mem_append.mp hc with hc | hc
  · rw [List.eq_of_mem_replicate hc]; decide
  · exact natDecimal_digits n c hc

/-- C10: for a `commission_device` intent with a non-empty setup code, the
node id in the pairing invocation's argument vector and in any emitted
`CommissioningStatus` that reports a node id is the server-generated value
`fmt.Sprintf("%04d", rand.Intn(100000))`: the random draw below 100000
formatted as at least four decimal digits.  The client-supplied proposed
node id (`NodeID`) is overwritten before any use and influences nothing. -/
theorem commission_node_id_server_generated (p : CommissionPayload)
    (n : Nat) (r1 r2 : RunRes) (hs : p.SetupCode ≠ "") (hn : n < 100000) :
    (commissionSpawns (handleCommission p false n r1 r2)).headI
        = ["pairing", "onnetwork-long", format04d n, p.SetupCode, p.LongDiscriminator] ∧
    (∀ st ∈ commissionStatuses (handleCommission p false n r1 r2),
        st.NodeID ≠ "" → st.NodeID = format04d n) ∧
    4 ≤ (format04d n).length ∧
    (∀ c ∈ (format04d n).data, c.isDigit = true) ∧
    (∀ x : String, handleCommission { p with NodeID := x } false n r1 r2
        = handleCommission p false n r1 r2) := by
  have hmod : n % 100000 = n := Nat.mod_eq_of_lt hn
  refine ⟨?_, ?_, format04d_length n, format04d_digits n, fun x => rfl⟩
  · unfold handleCommission
    rw [if_neg hs, if_neg (by simp), hmod]
    simp only [commissionSpawns, List.cons_append, List.nil_append,
      List.filterMap_cons]
    rfl
  · intro st hst hne
    unfold handleCommission at hst
    rw [if_neg hs, if_neg (by simp), hmod] at hst
    simp only [commissionStatuses, List.cons_append, List.nil_append,
      List.filterMap_cons] at hst
    split at hst
    · split at hst
      · simp at hst
        rw [hst] at hne
        simp at hne
      · simp at hst
    · split at hst
      · simp at hst
        rcases hst with hst | hst
        · rw [hst]
        · rw [hst] at hne
          simp at hne
      · simp at hst
        rcases hst with hst | hst
        · rw [hst]
        · rw [hst] at hne
          simp at hne

theorem commission_node_id_server_generated_witness :
    (({ SetupCode := "20202021", LongDiscriminator := "770", VendorID := "",
        ProductID := "", NodeID := "4321", CommissioningMode := "" } :
        CommissionPayload).SetupCode ≠ "") ∧
    (7 < 100000) ∧
    (commissionSpawns (handleCommission
        { SetupCode := "20202021", LongDiscriminator := "770", VendorID := "",
          ProductID := "", NodeID := "4321", CommissioningMode := "" }
        false 7 ⟨none, "", ""⟩ ⟨none, "", ""⟩)).headI
      = ["pairing", "onnetwork-long", format04d 7, "20202021", "770"] ∧
    format04d 7 = "0007" :=
  ⟨by decide, by decide,
   (commission_node_id_server_generated
      { SetupCode := "20202021", LongDiscriminator := "770", VendorID := "",
        ProductID := "", NodeID := "4321", CommissioningMode := "" }
      7 ⟨none, "", ""⟩ ⟨none, "", ""⟩ (by decide) (by decide)).1,
   by decide⟩
